import Mathlib

/- Formal model of the pl-team-analysis data-normalization and metrics pipeline
(src/data/preprocessor.py, src/metrics/{attacking,defensive,possession,aggregators}.py).
Machine floats are modelled by exact rationals (ℚ); Python `round(x, d)` is
round-half-to-even at d decimals, `int(x)` / numpy `astype(int)` truncate toward
zero.  Each definition mirrors one Python function of the same (snake_case) name. -/

namespace PLTeam

set_option maxRecDepth 100000

attribute [local semireducible] Rat.add Rat.sub Rat.mul Rat.inv Rat.ofScientific

/-- Python `round` ties-to-even on an exact rational: nearest integer, ties to even. -/
def roundHalfEven (q : ℚ) : ℤ :=
  let f := ⌊q⌋
  if q - f < 1/2 then f
  else if (1:ℚ)/2 < q - f then f + 1
  else if Even f then f else f + 1

/-- Python `round(x, d)` on an exact rational. -/
def pyround (q : ℚ) (d : ℕ) : ℚ :=
  (roundHalfEven (q * 10 ^ d) : ℚ) / 10 ^ d

/-- Python `int(x)` / numpy `astype(int)`: truncation toward zero. -/
def qtrunc (q : ℚ) : ℤ :=
  if 0 ≤ q then ⌊q⌋ else ⌈q⌉

/-- One normalized match record (one row of the canonical table after
`preprocess_data` coerced every declared numeric stat column; invalid/missing
values have already become 0, so a field is just its rational value).
String columns keep their Python names in camelCase. -/
structure MatchRec where
  team : String := ""
  season : String := ""
  side : String := ""
  points : ℚ := 0
  goalScored : ℚ := 0
  goalConceded : ℚ := 0
  xg : ℚ := 0
  totalShots : ℚ := 0
  shotsOnTarget : ℚ := 0
  bigChances : ℚ := 0
  bigChancesMissed : ℚ := 0
  shotsInsideBox : ℚ := 0
  shotsOffTarget : ℚ := 0
  blockedShots : ℚ := 0
  hitWoodwork : ℚ := 0
  xgOpenPlay : ℚ := 0
  xgSetPlay : ℚ := 0
  xgot : ℚ := 0
  passes : ℚ := 0
  oppositionHalf : ℚ := 0
  ownHalf : ℚ := 0
  touchesInBox : ℚ := 0
  corners : ℚ := 0
  tackles : ℚ := 0
  interceptions : ℚ := 0
  blocks : ℚ := 0
  clearances : ℚ := 0
  keeperSaves : ℚ := 0
  possessionPct : ℚ := 0
  accuratePassesPct : ℚ := 0
  accurateLongBallsPct : ℚ := 0
  accurateCrossesPct : ℚ := 0
  duelsWonPct : ℚ := 0
  successfulDribblesCount : ℚ := 0
deriving DecidableEq

/-- Sum of a numeric column over a record collection (pandas `df[col].sum()`). -/
def sumBy (f : MatchRec → ℚ) (df : List MatchRec) : ℚ :=
  (df.map f).sum

/-- Mean of a numeric column (pandas `.mean()`); the callers below only reach it
on non-empty frames, where it equals sum/len. -/
def meanBy (f : MatchRec → ℚ) (df : List MatchRec) : ℚ :=
  if df.length = 0 then 0 else sumBy f df / df.length

/- ===== preprocessor.add_calculated_columns, row-wise derived columns =====
Each numpy `np.where(den > 0, num/den*k, 0)` becomes an `if den > 0` guard. -/

/-- `xg_difference` column. -/
def xg_difference (r : MatchRec) : ℚ := r.goalScored - r.xg

/-- `shot_conversion_pct` column. -/
def shot_conversion_pct (r : MatchRec) : ℚ :=
  if r.totalShots > 0 then r.goalScored / r.totalShots * 100 else 0

/-- `shots_on_target_pct` column. -/
def shots_on_target_pct (r : MatchRec) : ℚ :=
  if r.totalShots > 0 then r.shotsOnTarget / r.totalShots * 100 else 0

/-- `big_chance_conversion_pct` column. -/
def big_chance_conversion_pct (r : MatchRec) : ℚ :=
  if r.bigChances > 0 then (r.bigChances - r.bigChancesMissed) / r.bigChances * 100 else 0

/-- `shots_inside_box_pct` column. -/
def shots_inside_box_pct (r : MatchRec) : ℚ :=
  if r.totalShots > 0 then r.shotsInsideBox / r.totalShots * 100 else 0

/-- `is_win` flag: `(df["points"] == 3).astype(int)`. -/
def isWin (r : MatchRec) : ℕ := if r.points = 3 then 1 else 0

/-- `is_draw` flag: `(df["points"] == 1).astype(int)`. -/
def isDraw (r : MatchRec) : ℕ := if r.points = 1 then 1 else 0

/-- `is_loss` flag: `(df["points"] == 0).astype(int)`. -/
def isLoss (r : MatchRec) : ℕ := if r.points = 0 then 1 else 0

/-- `is_clean_sheet` flag: `(df["Goal conceded"] == 0).astype(int)`. -/
def isCleanSheet (r : MatchRec) : ℕ := if r.goalConceded = 0 then 1 else 0

/-- `goal_difference` column. -/
def goal_difference (r : MatchRec) : ℚ := r.goalScored - r.goalConceded

/-- `defensive_actions` column. -/
def defensive_actions (r : MatchRec) : ℚ :=
  r.tackles + r.interceptions + r.blocks + r.clearances

/-- `opp_half_passes_pct` column. -/
def opp_half_passes_pct (r : MatchRec) : ℚ :=
  if r.passes > 0 then r.oppositionHalf / r.passes * 100 else 0

/-- `xg_open_play_ratio` column. -/
def xg_open_play_ratio (r : MatchRec) : ℚ :=
  if r.xg > 0 then r.xgOpenPlay / r.xg else 0

/-- `xg_set_play_ratio` column. -/
def xg_set_play_ratio (r : MatchRec) : ℚ :=
  if r.xg > 0 then r.xgSetPlay / r.xg else 0

/-- `xg_per_shot` column. -/
def xg_per_shot (r : MatchRec) : ℚ :=
  if r.totalShots > 0 then r.xg / r.totalShots else 0

/-- `woodwork_rate` column. -/
def woodwork_rate (r : MatchRec) : ℚ :=
  if r.totalShots > 0 then r.hitWoodwork / r.totalShots * 100 else 0

/-- `blocked_shot_rate` column. -/
def blocked_shot_rate (r : MatchRec) : ℚ :=
  if r.totalShots > 0 then r.blockedShots / r.totalShots * 100 else 0

/-- `shots_off_target_rate` column. -/
def shots_off_target_rate (r : MatchRec) : ℚ :=
  if r.totalShots > 0 then r.shotsOffTarget / r.totalShots * 100 else 0

/-- `possession_category` column: `pd.cut(possession_pct, bins=[0,45,55,100],
labels=[...])`.  pandas `cut` defaults to right-closed intervals with an open
lowest bound, i.e. (0,45], (45,55], (55,100]; values outside every bin (here
0 itself, negatives, and > 100) become NaN, modelled as `none`. -/
def possession_category (p : ℚ) : Option String :=
  if 0 < p ∧ p ≤ 45 then some "Low (<45%)"
  else if 45 < p ∧ p ≤ 55 then some "Medium (45-55%)"
  else if 55 < p ∧ p ≤ 100 then some "High (>55%)"
  else none

/- ===== preprocessor.parse_percentage_string (the spec's parse_count_and_percentage) ===== -/

/-- Whitespace recognised by Python `str.strip` / regex `\s` (ASCII range). -/
def isPySpace (c : Char) : Bool :=
  c == ' ' || c == '\t' || c == '\n' || c == '\r' || c == '\x0b' || c == '\x0c'

/-- Python `str.strip()`. -/
def pstrip (cs : List Char) : List Char :=
  ((cs.dropWhile isPySpace).reverse.dropWhile isPySpace).reverse

/-- Digit run to its decimal value. -/
def digitsToNat (ds : List Char) : ℕ :=
  ds.foldl (fun n c => 10 * n + (c.toNat - 48)) 0

/-- The regex `re.match(r"(\d+)\s*\((\d+)%\)", s)`: anchored at the start, not at
the end, ASCII digits.  Returns the two captured integers on a match. -/
def matchCountPct (cs : List Char) : Option (ℕ × ℕ) :=
  let ds := cs.takeWhile Char.isDigit
  let rest := (cs.dropWhile Char.isDigit).dropWhile isPySpace
  if ds.isEmpty then none
  else
    match rest with
    | '(' :: r =>
      let ds2 := r.takeWhile Char.isDigit
      (match (r.dropWhile Char.isDigit) with
       | '%' :: ')' :: _ => if ds2.isEmpty then none else some (digitsToNat ds, digitsToNat ds2)
       | _ => none)
    | _ => none

/-- A Python `digitpart`: digits with single underscores allowed between two
digits (`1_000` parses, `1_`, `_1` and `1__0` do not extend the group).
Returns the digits with underscores removed, and the unconsumed tail. -/
def digitGroup : List Char → (List Char × List Char)
  | [] => ([], [])
  | c :: rest =>
    if c.isDigit then
      let (ds, r) := digitGroup rest
      (c :: ds, r)
    else if c = '_' then
      match rest with
      | d :: _ => if d.isDigit then digitGroup rest else ([], c :: rest)
      | [] => ([], c :: rest)
    else ([], c :: rest)

/-- Unsigned decimal mantissa `digitpart [. digitpart]` or `. digitpart`;
returns its exact value and the unconsumed tail, or `none` when no digit is
present. -/
def parseMantissa (cs : List Char) : Option (ℚ × List Char) :=
  let (ip, r1) := digitGroup cs
  match r1 with
  | '.' :: r2 =>
    let (fp, r3) := digitGroup r2
    if ip.isEmpty ∧ fp.isEmpty then none
    else some ((digitsToNat ip : ℚ) + (digitsToNat fp : ℚ) / 10 ^ fp.length, r3)
  | _ => if ip.isEmpty then none else some ((digitsToNat ip : ℚ), r1)

/-- The value classes a Python `float()` call can produce: a finite double, a
signed infinity, or NaN. -/
inductive PyFloat where
  | finite (q : ℚ)
  | inf (neg : Bool)
  | nan
deriving DecidableEq

/-- Smallest magnitude at which string-to-double conversion rounds to
IEEE-754 infinity: half a unit in the last place beyond the largest finite
double `2^1024 - 2^971`; round-to-nearest-even sends every magnitude at or
above `2^1024 - 2^970` to inf (so e.g. `float("1e400")` is inf). -/
def doubleOverflowBound : ℚ := ((2 ^ 1024 - 2 ^ 970 : ℕ) : ℚ)

/-- Classify an exact literal value as the double `float()` returns: an
infinity past the overflow bound, otherwise finite.  In-range values are kept
exact rather than rounded to 53 bits: that rounding perturbs only the low
digits of huge literals and never the raising or sign behaviour at issue here. -/
def mkPyFloat (q : ℚ) : PyFloat :=
  if doubleOverflowBound ≤ q then .inf false
  else if q ≤ -doubleOverflowBound then .inf true
  else .finite q

/-- Ten to a signed exponent, the scaling of scientific notation. -/
def pow10 (e : ℤ) : ℚ :=
  if 0 ≤ e then ((10 ^ e.toNat : ℕ) : ℚ) else 1 / ((10 ^ (-e).toNat : ℕ) : ℚ)

/-- ASCII lowercasing, for `float()`'s case-insensitive special spellings. -/
def lowerStr (cs : List Char) : List Char := cs.map Char.toLower

deriving instance DecidableEq for Except

/-- Python `float(s)` on an already-stripped string: an optional sign followed
by an `inf`/`infinity`/`nan` spelling (case-insensitive) or a decimal literal
`digitpart [. digitpart] [(e|E) [+-] digitpart]` with underscore digit
grouping; literals past the double range overflow to infinity.  `none` models
the `ValueError` raise for any other string. -/
def parseFloatQ (cs : List Char) : Option PyFloat :=
  let (neg, cs1) : Bool × List Char :=
    match cs with
    | '-' :: t => (true, t)
    | '+' :: t => (false, t)
    | _ => (false, cs)
  if lowerStr cs1 = "inf".data ∨ lowerStr cs1 = "infinity".data then some (.inf neg)
  else if lowerStr cs1 = "nan".data then some .nan
  else
    let sgn : ℚ := if neg then -1 else 1
    match parseMantissa cs1 with
    | none => none
    | some (m, rest) =>
      match rest with
      | [] => some (mkPyFloat (sgn * m))
      | e :: r2 =>
        if e == 'e' || e == 'E' then
          let (esgn, r3) : ℤ × List Char :=
            match r2 with
            | '-' :: t => (-1, t)
            | '+' :: t => (1, t)
            | _ => (1, r2)
          let (eds, r4) := digitGroup r3
          if eds.isEmpty ∨ ¬ r4.isEmpty then none
          else some (mkPyFloat (sgn * m * pow10 (esgn * (digitsToNat eds : ℤ))))
        else none

/-- `parse_percentage_string(value)`: `None`/NaN input is `none`; otherwise the
raw string.  Mirrors the source: the isna/empty guard, the `"N (P%)"` regex,
then `int(float(s))` under `except (ValueError, TypeError)`.  `float()` raising
`ValueError` (unparseable) and `int(nan)` raising `ValueError` are caught and
give `(0, 0.0)`, but `int(±inf)` raises `OverflowError`, which the except
clause does not catch — that uncaught exception is the `Except.error` case. -/
def parse_percentage_string (value : Option String) : Except String (ℤ × ℚ) :=
  match value with
  | none => .ok (0, 0)
  | some s =>
    if s = "" then .ok (0, 0)
    else
      let vs := pstrip s.data
      match matchCountPct vs with
      | some (c, p) => .ok ((c : ℤ), (p : ℚ) / 100)
      | none =>
        match parseFloatQ vs with
        | some (.finite q) => .ok (qtrunc q, 0)
        | some (.inf _) => .error "OverflowError"
        | some .nan => .ok (0, 0)
        | none => .ok (0, 0)

/- ===== metrics/attacking.py ===== -/

/-- `goals_per_game`. -/
def goals_per_game (df : List MatchRec) : ℚ :=
  if df.length = 0 then 0 else sumBy MatchRec.goalScored df / df.length

/-- `xg_per_game`. -/
def xg_per_game (df : List MatchRec) : ℚ :=
  if df.length = 0 then 0 else sumBy MatchRec.xg df / df.length

/-- `xg_overperformance`. -/
def xg_overperformance (df : List MatchRec) : ℚ :=
  sumBy MatchRec.goalScored df - sumBy MatchRec.xg df

/-- `xg_overperformance_per_game`. -/
def xg_overperformance_per_game (df : List MatchRec) : ℚ :=
  if df.length = 0 then 0 else xg_overperformance df / df.length

/-- `shot_conversion_rate`. -/
def shot_conversion_rate (df : List MatchRec) : ℚ :=
  if sumBy MatchRec.totalShots df = 0 then 0
  else sumBy MatchRec.goalScored df / sumBy MatchRec.totalShots df * 100

/-- `shots_on_target_rate`. -/
def shots_on_target_rate (df : List MatchRec) : ℚ :=
  if sumBy MatchRec.totalShots df = 0 then 0
  else sumBy MatchRec.shotsOnTarget df / sumBy MatchRec.totalShots df * 100

/-- `big_chance_conversion_rate`. -/
def big_chance_conversion_rate (df : List MatchRec) : ℚ :=
  if sumBy MatchRec.bigChances df = 0 then 0
  else (sumBy MatchRec.bigChances df - sumBy MatchRec.bigChancesMissed df) /
        sumBy MatchRec.bigChances df * 100

/-- `shots_per_game`. -/
def shots_per_game (df : List MatchRec) : ℚ :=
  if df.length = 0 then 0 else sumBy MatchRec.totalShots df / df.length

/-- `shots_on_target_per_game`. -/
def shots_on_target_per_game (df : List MatchRec) : ℚ :=
  if df.length = 0 then 0 else sumBy MatchRec.shotsOnTarget df / df.length

/-- `big_chances_per_game`. -/
def big_chances_per_game (df : List MatchRec) : ℚ :=
  if df.length = 0 then 0 else sumBy MatchRec.bigChances df / df.length

/-- `xgot_per_game`. -/
def xgot_per_game (df : List MatchRec) : ℚ :=
  if df.length = 0 then 0 else sumBy MatchRec.xgot df / df.length

/-- `shots_inside_box_rate`. -/
def shots_inside_box_rate (df : List MatchRec) : ℚ :=
  if sumBy MatchRec.totalShots df = 0 then 0
  else sumBy MatchRec.shotsInsideBox df / sumBy MatchRec.totalShots df * 100

/-- The dict returned by `get_attacking_metrics`, as a fixed-field record
(every key is always present in the source dict). -/
structure AttackingMetrics where
  matchesPlayed : ℕ  -- source dict key "matches" (a reserved word in Lean)
  total_goals : ℤ
  total_xg : ℚ
  goals_per_game : ℚ
  xg_per_game : ℚ
  xg_overperformance : ℚ
  xg_overperformance_per_game : ℚ
  shot_conversion_pct : ℚ
  shots_on_target_pct : ℚ
  big_chance_conversion_pct : ℚ
  shots_per_game : ℚ
  shots_on_target_per_game : ℚ
  big_chances_per_game : ℚ
  xgot_per_game : ℚ
  shots_inside_box_pct : ℚ
  total_big_chances : ℤ
  total_big_chances_missed : ℤ
deriving DecidableEq

/-- `get_attacking_metrics`. -/
def get_attacking_metrics (df : List MatchRec) : AttackingMetrics where
  matchesPlayed := df.length
  total_goals := qtrunc (sumBy MatchRec.goalScored df)
  total_xg := pyround (sumBy MatchRec.xg df) 2
  goals_per_game := pyround (goals_per_game df) 2
  xg_per_game := pyround (xg_per_game df) 2
  xg_overperformance := pyround (xg_overperformance df) 2
  xg_overperformance_per_game := pyround (xg_overperformance_per_game df) 2
  shot_conversion_pct := pyround (shot_conversion_rate df) 1
  shots_on_target_pct := pyround (shots_on_target_rate df) 1
  big_chance_conversion_pct := pyround (big_chance_conversion_rate df) 1
  shots_per_game := pyround (shots_per_game df) 1
  shots_on_target_per_game := pyround (shots_on_target_per_game df) 1
  big_chances_per_game := pyround (big_chances_per_game df) 2
  xgot_per_game := pyround (xgot_per_game df) 2
  shots_inside_box_pct := pyround (shots_inside_box_rate df) 1
  total_big_chances := qtrunc (sumBy MatchRec.bigChances df)
  total_big_chances_missed := qtrunc (sumBy MatchRec.bigChancesMissed df)

/-- `set_piece_xg_pct` entry of `get_set_piece_metrics`. -/
def set_piece_xg_pct_val (df : List MatchRec) : ℚ :=
  if sumBy MatchRec.xg df > 0
  then pyround (sumBy MatchRec.xgSetPlay df / sumBy MatchRec.xg df * 100) 1 else 0

/-- `open_play_xg_pct` entry of `get_set_piece_metrics`. -/
def open_play_xg_pct_val (df : List MatchRec) : ℚ :=
  if sumBy MatchRec.xg df > 0
  then pyround (sumBy MatchRec.xgOpenPlay df / sumBy MatchRec.xg df * 100) 1 else 0

/-- `xg_per_corner` entry of `get_set_piece_metrics`. -/
def xg_per_corner_val (df : List MatchRec) : ℚ :=
  if sumBy MatchRec.corners df > 0
  then pyround (sumBy MatchRec.xgSetPlay df / sumBy MatchRec.corners df) 3 else 0

/-- The dict returned by `get_set_piece_metrics` on non-empty input. -/
structure SetPieceMetrics where
  xg_from_set_pieces : ℚ
  xg_from_open_play : ℚ
  set_piece_xg_pct : ℚ
  open_play_xg_pct : ℚ
  corners_total : ℤ
  corners_per_game : ℚ
  xg_per_corner : ℚ
  set_piece_xg_per_game : ℚ
  open_play_xg_per_game : ℚ
deriving DecidableEq

/-- `get_set_piece_metrics`: `{}` on an empty frame becomes `none`. -/
def get_set_piece_metrics (df : List MatchRec) : Option SetPieceMetrics :=
  if df.length = 0 then none
  else some
    { xg_from_set_pieces := pyround (sumBy MatchRec.xgSetPlay df) 2
      xg_from_open_play := pyround (sumBy MatchRec.xgOpenPlay df) 2
      set_piece_xg_pct := set_piece_xg_pct_val df
      open_play_xg_pct := open_play_xg_pct_val df
      corners_total := qtrunc (sumBy MatchRec.corners df)
      corners_per_game := pyround (sumBy MatchRec.corners df / df.length) 1
      xg_per_corner := xg_per_corner_val df
      set_piece_xg_per_game := pyround (sumBy MatchRec.xgSetPlay df / df.length) 2
      open_play_xg_per_game := pyround (sumBy MatchRec.xgOpenPlay df / df.length) 2 }

/-- `avg_xg_per_shot` entry of `get_shot_quality_metrics`. -/
def avg_xg_per_shot_val (df : List MatchRec) : ℚ :=
  if sumBy MatchRec.totalShots df > 0
  then pyround (sumBy MatchRec.xg df / sumBy MatchRec.totalShots df) 3 else 0

/-- A `round((part / total_shots) * 100, 1) if total_shots > 0 else 0` entry. -/
def shot_rate_pct_val (part : MatchRec → ℚ) (df : List MatchRec) : ℚ :=
  if sumBy MatchRec.totalShots df > 0
  then pyround (sumBy part df / sumBy MatchRec.totalShots df * 100) 1 else 0

/-- The dict returned by `get_shot_quality_metrics` on non-empty input. -/
structure ShotQualityMetrics where
  avg_xg_per_shot : ℚ
  total_shots : ℤ
  woodwork_total : ℤ
  woodwork_rate_pct : ℚ
  blocked_shots_total : ℤ
  blocked_rate_pct : ℚ
  off_target_total : ℤ
  off_target_rate_pct : ℚ
  on_target_total : ℤ
  on_target_rate_pct : ℚ
  goals_total : ℤ
  goal_rate_pct : ℚ
  potential_woodwork_goals : ℚ
deriving DecidableEq

/-- `get_shot_quality_metrics`: `{}` on an empty frame becomes `none`. -/
def get_shot_quality_metrics (df : List MatchRec) : Option ShotQualityMetrics :=
  if df.length = 0 then none
  else some
    { avg_xg_per_shot := avg_xg_per_shot_val df
      total_shots := qtrunc (sumBy MatchRec.totalShots df)
      woodwork_total := qtrunc (sumBy MatchRec.hitWoodwork df)
      woodwork_rate_pct := shot_rate_pct_val MatchRec.hitWoodwork df
      blocked_shots_total := qtrunc (sumBy MatchRec.blockedShots df)
      blocked_rate_pct := shot_rate_pct_val MatchRec.blockedShots df
      off_target_total := qtrunc (sumBy MatchRec.shotsOffTarget df)
      off_target_rate_pct := shot_rate_pct_val MatchRec.shotsOffTarget df
      on_target_total := qtrunc (sumBy MatchRec.shotsOnTarget df)
      on_target_rate_pct := shot_rate_pct_val MatchRec.shotsOnTarget df
      goals_total := qtrunc (sumBy MatchRec.goalScored df)
      goal_rate_pct := shot_rate_pct_val MatchRec.goalScored df
      potential_woodwork_goals := pyround (sumBy MatchRec.hitWoodwork df * (1/2)) 1 }

/-- The dict of dicts returned by `get_shot_outcome_breakdown` on non-empty
input, flattened into count/pct fields per outcome. -/
structure ShotOutcome where
  goals_count : ℤ
  goals_pct : ℚ
  saved_count : ℤ
  saved_pct : ℚ
  blocked_count : ℤ
  blocked_pct : ℚ
  off_target_count : ℤ
  off_target_pct : ℚ
  woodwork_count : ℤ
  woodwork_pct : ℚ
deriving DecidableEq

/-- `get_shot_outcome_breakdown`: `{}` on an empty frame becomes `none`;
`saved` is on-target minus goals. -/
def get_shot_outcome_breakdown (df : List MatchRec) : Option ShotOutcome :=
  if df.length = 0 then none
  else some
    { goals_count := qtrunc (sumBy MatchRec.goalScored df)
      goals_pct := shot_rate_pct_val MatchRec.goalScored df
      saved_count := qtrunc (sumBy MatchRec.shotsOnTarget df - sumBy MatchRec.goalScored df)
      saved_pct :=
        if sumBy MatchRec.totalShots df > 0
        then pyround ((sumBy MatchRec.shotsOnTarget df - sumBy MatchRec.goalScored df) /
               sumBy MatchRec.totalShots df * 100) 1 else 0
      blocked_count := qtrunc (sumBy MatchRec.blockedShots df)
      blocked_pct := shot_rate_pct_val MatchRec.blockedShots df
      off_target_count := qtrunc (sumBy MatchRec.shotsOffTarget df)
      off_target_pct := shot_rate_pct_val MatchRec.shotsOffTarget df
      woodwork_count := qtrunc (sumBy MatchRec.hitWoodwork df)
      woodwork_pct := shot_rate_pct_val MatchRec.hitWoodwork df }

/- ===== metrics/defensive.py ===== -/

/-- `goals_conceded_per_game`. -/
def goals_conceded_per_game (df : List MatchRec) : ℚ :=
  if df.length = 0 then 0 else sumBy MatchRec.goalConceded df / df.length

/-- `clean_sheets`: count of matches with 0 conceded. -/
def clean_sheets (df : List MatchRec) : ℕ :=
  df.countP (fun r => r.goalConceded == 0)

/-- `clean_sheet_percentage`. -/
def clean_sheet_percentage (df : List MatchRec) : ℚ :=
  if df.length = 0 then 0 else (clean_sheets df : ℚ) / df.length * 100

/-- `tackles_per_game`. -/
def tackles_per_game (df : List MatchRec) : ℚ :=
  if df.length = 0 then 0 else sumBy MatchRec.tackles df / df.length

/-- `interceptions_per_game`. -/
def interceptions_per_game (df : List MatchRec) : ℚ :=
  if df.length = 0 then 0 else sumBy MatchRec.interceptions df / df.length

/-- `blocks_per_game`. -/
def blocks_per_game (df : List MatchRec) : ℚ :=
  if df.length = 0 then 0 else sumBy MatchRec.blocks df / df.length

/-- `clearances_per_game`. -/
def clearances_per_game (df : List MatchRec) : ℚ :=
  if df.length = 0 then 0 else sumBy MatchRec.clearances df / df.length

/-- `defensive_actions_per_game`. -/
def defensive_actions_per_game (df : List MatchRec) : ℚ :=
  if df.length = 0 then 0
  else (sumBy MatchRec.tackles df + sumBy MatchRec.interceptions df +
        sumBy MatchRec.blocks df + sumBy MatchRec.clearances df) / df.length

/-- `saves_per_game`. -/
def saves_per_game (df : List MatchRec) : ℚ :=
  if df.length = 0 then 0 else sumBy MatchRec.keeperSaves df / df.length

/-- `duels_won_percentage`. -/
def duels_won_percentage (df : List MatchRec) : ℚ :=
  if df.length = 0 then 0 else meanBy MatchRec.duelsWonPct df * 100

/-- The dict returned by `get_defensive_metrics`. -/
structure DefensiveMetrics where
  matchesPlayed : ℕ  -- source dict key "matches"
  total_goals_conceded : ℤ
  goals_conceded_per_game : ℚ
  clean_sheets : ℕ
  clean_sheet_pct : ℚ
  tackles_per_game : ℚ
  interceptions_per_game : ℚ
  blocks_per_game : ℚ
  clearances_per_game : ℚ
  defensive_actions_per_game : ℚ
  saves_per_game : ℚ
  total_tackles : ℤ
  total_interceptions : ℤ
  total_blocks : ℤ
  total_clearances : ℤ
deriving DecidableEq

/-- `get_defensive_metrics`. -/
def get_defensive_metrics (df : List MatchRec) : DefensiveMetrics where
  matchesPlayed := df.length
  total_goals_conceded := qtrunc (sumBy MatchRec.goalConceded df)
  goals_conceded_per_game := pyround (goals_conceded_per_game df) 2
  clean_sheets := clean_sheets df
  clean_sheet_pct := pyround (clean_sheet_percentage df) 1
  tackles_per_game := pyround (tackles_per_game df) 1
  interceptions_per_game := pyround (interceptions_per_game df) 1
  blocks_per_game := pyround (blocks_per_game df) 1
  clearances_per_game := pyround (clearances_per_game df) 1
  defensive_actions_per_game := pyround (defensive_actions_per_game df) 1
  saves_per_game := pyround (saves_per_game df) 1
  total_tackles := qtrunc (sumBy MatchRec.tackles df)
  total_interceptions := qtrunc (sumBy MatchRec.interceptions df)
  total_blocks := qtrunc (sumBy MatchRec.blocks df)
  total_clearances := qtrunc (sumBy MatchRec.clearances df)

/- ===== metrics/possession.py ===== -/

/-- `average_possession` (mean, not sum-based). -/
def average_possession (df : List MatchRec) : ℚ :=
  if df.length = 0 then 0 else meanBy MatchRec.possessionPct df

/-- `passes_per_game`. -/
def passes_per_game (df : List MatchRec) : ℚ :=
  if df.length = 0 then 0 else sumBy MatchRec.passes df / df.length

/-- `pass_accuracy`: mean of the per-match accurate-pass share times 100. -/
def pass_accuracy (df : List MatchRec) : ℚ :=
  if df.length = 0 then 0 else meanBy MatchRec.accuratePassesPct df * 100

/-- `opposition_half_passes_per_game`. -/
def opposition_half_passes_per_game (df : List MatchRec) : ℚ :=
  if df.length = 0 then 0 else sumBy MatchRec.oppositionHalf df / df.length

/-- `own_half_passes_per_game`. -/
def own_half_passes_per_game (df : List MatchRec) : ℚ :=
  if df.length = 0 then 0 else sumBy MatchRec.ownHalf df / df.length

/-- `long_ball_accuracy`. -/
def long_ball_accuracy (df : List MatchRec) : ℚ :=
  if df.length = 0 then 0 else meanBy MatchRec.accurateLongBallsPct df * 100

/-- `cross_accuracy`. -/
def cross_accuracy (df : List MatchRec) : ℚ :=
  if df.length = 0 then 0 else meanBy MatchRec.accurateCrossesPct df * 100

/-- `touches_in_box_per_game`. -/
def touches_in_box_per_game (df : List MatchRec) : ℚ :=
  if df.length = 0 then 0 else sumBy MatchRec.touchesInBox df / df.length

/-- `corners_per_game`. -/
def corners_per_game (df : List MatchRec) : ℚ :=
  if df.length = 0 then 0 else sumBy MatchRec.corners df / df.length

/-- `successful_dribbles_per_game`. -/
def successful_dribbles_per_game (df : List MatchRec) : ℚ :=
  if df.length = 0 then 0 else sumBy MatchRec.successfulDribblesCount df / df.length

/-- The dict returned by `get_possession_metrics`. -/
structure PossessionMetrics where
  matchesPlayed : ℕ  -- source dict key "matches"
  avg_possession : ℚ
  passes_per_game : ℚ
  pass_accuracy_pct : ℚ
  opp_half_passes_per_game : ℚ
  own_half_passes_per_game : ℚ
  long_ball_accuracy_pct : ℚ
  cross_accuracy_pct : ℚ
  touches_in_box_per_game : ℚ
  corners_per_game : ℚ
  successful_dribbles_per_game : ℚ
  total_passes : ℤ
  total_corners : ℤ
deriving DecidableEq

/-- `get_possession_metrics`. -/
def get_possession_metrics (df : List MatchRec) : PossessionMetrics where
  matchesPlayed := df.length
  avg_possession := pyround (average_possession df) 1
  passes_per_game := pyround (passes_per_game df) 0
  pass_accuracy_pct := pyround (pass_accuracy df) 1
  opp_half_passes_per_game := pyround (opposition_half_passes_per_game df) 0
  own_half_passes_per_game := pyround (own_half_passes_per_game df) 0
  long_ball_accuracy_pct := pyround (long_ball_accuracy df) 1
  cross_accuracy_pct := pyround (cross_accuracy df) 1
  touches_in_box_per_game := pyround (touches_in_box_per_game df) 1
  corners_per_game := pyround (corners_per_game df) 1
  successful_dribbles_per_game := pyround (successful_dribbles_per_game df) 1
  total_passes := qtrunc (sumBy MatchRec.passes df)
  total_corners := qtrunc (sumBy MatchRec.corners df)

/- ===== possession effectiveness (possession.py) ===== -/

/-- `high_poss = df[df["possession_pct"] >= 55]`. -/
def highPossGames (df : List MatchRec) : List MatchRec :=
  df.filter (fun r => 55 ≤ r.possessionPct)

/-- `medium_poss = df[(df["possession_pct"] >= 45) & (df["possession_pct"] < 55)]`. -/
def mediumPossGames (df : List MatchRec) : List MatchRec :=
  df.filter (fun r => 45 ≤ r.possessionPct ∧ r.possessionPct < 55)

/-- `low_poss = df[df["possession_pct"] < 45]`. -/
def lowPossGames (df : List MatchRec) : List MatchRec :=
  df.filter (fun r => r.possessionPct < 45)

/-- `high_poss_ppg`. -/
def highPossPPG (df : List MatchRec) : ℚ :=
  let h := highPossGames df
  if h.length > 0 then sumBy MatchRec.points h / h.length else 0

/-- `medium_poss_ppg`. -/
def mediumPossPPG (df : List MatchRec) : ℚ :=
  let m := mediumPossGames df
  if m.length > 0 then sumBy MatchRec.points m / m.length else 0

/-- `low_poss_ppg`. -/
def lowPossPPG (df : List MatchRec) : ℚ :=
  let l := lowPossGames df
  if l.length > 0 then sumBy MatchRec.points l / l.length else 0

/-- `high_poss_win_rate`, from the summed `is_win` flags. -/
def highPossWinRate (df : List MatchRec) : ℚ :=
  let h := highPossGames df
  if h.length > 0 then (((h.map isWin).sum : ℚ) / h.length) * 100 else 0

/-- `low_poss_win_rate`, from the summed `is_win` flags. -/
def lowPossWinRate (df : List MatchRec) : ℚ :=
  let l := lowPossGames df
  if l.length > 0 then (((l.map isWin).sum : ℚ) / l.length) * 100 else 0

/-- `xg_per_possession_pct = total_xg / (avg_possession * len(df)) if avg_possession > 0`. -/
def xgPerPossessionPctVal (df : List MatchRec) : ℚ :=
  if meanBy MatchRec.possessionPct df > 0
  then sumBy MatchRec.xg df / (meanBy MatchRec.possessionPct df * df.length) else 0

/-- `touches_per_xg = total_touches / total_xg if total_xg > 0`. -/
def touchesPerXgVal (df : List MatchRec) : ℚ :=
  if sumBy MatchRec.xg df > 0
  then sumBy MatchRec.touchesInBox df / sumBy MatchRec.xg df else 0

/-- The dict returned by `get_possession_effectiveness` on non-empty input. -/
structure PossessionEffectiveness where
  high_possession_games : ℕ
  high_possession_ppg : ℚ
  high_possession_win_rate : ℚ
  medium_possession_games : ℕ
  medium_possession_ppg : ℚ
  low_possession_games : ℕ
  low_possession_ppg : ℚ
  low_possession_win_rate : ℚ
  xg_per_possession_pct : ℚ
  touches_per_xg : ℚ
  better_with_possession : Bool
  possession_differential : ℚ
deriving DecidableEq

/-- `get_possession_effectiveness`: `{}` on an empty frame becomes `none`.  The
`better_with_possession` flag compares the unrounded PPG figures. -/
def get_possession_effectiveness (df : List MatchRec) : Option PossessionEffectiveness :=
  if df.length = 0 then none
  else some
    { high_possession_games := (highPossGames df).length
      high_possession_ppg := pyround (highPossPPG df) 2
      high_possession_win_rate := pyround (highPossWinRate df) 1
      medium_possession_games := (mediumPossGames df).length
      medium_possession_ppg := pyround (mediumPossPPG df) 2
      low_possession_games := (lowPossGames df).length
      low_possession_ppg := pyround (lowPossPPG df) 2
      low_possession_win_rate := pyround (lowPossWinRate df) 1
      xg_per_possession_pct := pyround (xgPerPossessionPctVal df) 3
      touches_per_xg := pyround (touchesPerXgVal df) 1
      better_with_possession := decide (highPossPPG df > lowPossPPG df)
      possession_differential := pyround (highPossPPG df - lowPossPPG df) 2 }

/- ===== tactical insight rules ===== -/

/-- One emitted finding.  The `finding` f-string only interpolates already-known
numbers for display, so the model keeps the discriminating fields: the constant
`title`, `action` and the computed `severity` tag. -/
structure Insight where
  title : String
  action : String
  severity : String
deriving DecidableEq

/-- `dict.get("set_piece_xg_pct", 0)` over the optional set-piece map. -/
def spPctGet (o : Option SetPieceMetrics) : ℚ :=
  match o with
  | none => 0
  | some m => m.set_piece_xg_pct

/-- `dict.get("open_play_xg_per_game", 0)`. -/
def openPlayPerGameGet (o : Option SetPieceMetrics) : ℚ :=
  match o with
  | none => 0
  | some m => m.open_play_xg_per_game

/-- `dict.get("avg_xg_per_shot", 0)`. -/
def xgPerShotGet (o : Option ShotQualityMetrics) : ℚ :=
  match o with
  | none => 0
  | some m => m.avg_xg_per_shot

/-- `dict.get("blocked_rate_pct", 0)`. -/
def blockedRateGet (o : Option ShotQualityMetrics) : ℚ :=
  match o with
  | none => 0
  | some m => m.blocked_rate_pct

/-- `dict.get("woodwork_total", 0)`. -/
def woodworkTotalGet (o : Option ShotQualityMetrics) : ℤ :=
  match o with
  | none => 0
  | some m => m.woodwork_total

/-- `attacking.get_tactical_insights`: the five rules, evaluated independently
and appended in the fixed source order.  All compared values are the rounded
entries of the metrics dicts. -/
def get_tactical_insights (team_df comparison_df : List MatchRec) : List Insight :=
  let team_sp := get_set_piece_metrics team_df
  let comp_sp := get_set_piece_metrics comparison_df
  let team_sq := get_shot_quality_metrics team_df
  let comp_sq := get_shot_quality_metrics comparison_df
  (if spPctGet team_sp > spPctGet comp_sp + 5 then
    [{ title := "Set Piece Dependency"
       action := "Improve open play build-up patterns and create more chances from possession"
       severity := if spPctGet team_sp > 35 then "high" else "medium" }]
   else []) ++
  (if xgPerShotGet team_sq - xgPerShotGet comp_sq < -(2/100) then
    [{ title := "Shot Quality Gap"
       action := "Focus on creating higher quality chances rather than volume of shots"
       severity := if xgPerShotGet team_sq - xgPerShotGet comp_sq < -(3/100)
                   then "high" else "medium" }]
   else []) ++
  (if blockedRateGet team_sq - blockedRateGet comp_sq > 5 then
    [{ title := "Shots Being Blocked"
       action := "Work on quicker shooting and less telegraphed attempts"
       severity := "medium" }]
   else []) ++
  (if woodworkTotalGet team_sq > 5 then
    [{ title := "Finishing Luck"
       action := "Finishing execution is good - variance should correct over time"
       severity := "info" }]
   else []) ++
  (if openPlayPerGameGet team_sp < openPlayPerGameGet comp_sp - 3/10 then
    [{ title := "Open Play Creation"
       action := "Tactical focus needed on build-up play and creating chances from possession"
       severity := "high" }]
   else [])

/-- `dict.get("better_with_possession", True)` over the optional effectiveness map. -/
def betterWithPossessionGet (o : Option PossessionEffectiveness) : Bool :=
  match o with
  | none => true
  | some m => m.better_with_possession

/-- `dict.get("xg_per_possession_pct", 0)`. -/
def xgPerPossessionGet (o : Option PossessionEffectiveness) : ℚ :=
  match o with
  | none => 0
  | some m => m.xg_per_possession_pct

/-- `dict.get("high_possession_win_rate", 0)`. -/
def highPossWinRateGet (o : Option PossessionEffectiveness) : ℚ :=
  match o with
  | none => 0
  | some m => m.high_possession_win_rate

/-- `dict.get("high_possession_games", 0)`. -/
def highPossGamesGet (o : Option PossessionEffectiveness) : ℕ :=
  match o with
  | none => 0
  | some m => m.high_possession_games

/-- `possession.get_possession_tactical_insights`: the three rules in source
order.  The counter-attack rule fires on `not better_with_possession` (default
True on an empty subject). -/
def get_possession_tactical_insights (team_df comparison_df : List MatchRec) : List Insight :=
  let team_eff := get_possession_effectiveness team_df
  let comp_eff := get_possession_effectiveness comparison_df
  (if ¬ (betterWithPossessionGet team_eff = true) then
    [{ title := "Counter-Attack Style More Effective"
       action := "Consider tactical shift towards counter-attacking style"
       severity := "high" }]
   else []) ++
  (if xgPerPossessionGet team_eff < xgPerPossessionGet comp_eff * (8/10) then
    [{ title := "Possession Efficiency Gap"
       action := "Possession is not translating to chances - work on final third penetration"
       severity := "medium" }]
   else []) ++
  (if highPossWinRateGet team_eff < 50 ∧ 5 ≤ highPossGamesGet team_eff then
    [{ title := "High Possession Not Converting to Wins"
       action := "Add more directness and urgency when in control of possession"
       severity := "high" }]
   else [])

/- ===== metrics/aggregators.py ===== -/

/-- The dict returned by `get_season_summary` on non-empty input: the counting
block plus the merged-in engine dicts (the `**` splices). -/
structure SeasonSummary where
  matches_played : ℕ
  wins : ℕ
  draws : ℕ
  losses : ℕ
  total_points : ℤ
  points_per_game : ℚ
  goals_scored : ℤ
  goals_conceded : ℤ
  goal_difference : ℤ
  clean_sheets_count : ℕ  -- source dict key "clean_sheets"
  home_wins : ℕ
  away_wins : ℕ
  attacking : AttackingMetrics
  defensive : DefensiveMetrics
  possession : PossessionMetrics
deriving DecidableEq

/-- `get_season_summary`: `{}` on an empty frame becomes `none`. -/
def get_season_summary (df : List MatchRec) : Option SeasonSummary :=
  if df.length = 0 then none
  else some
    { matches_played := df.length
      wins := (df.map isWin).sum
      draws := (df.map isDraw).sum
      losses := (df.map isLoss).sum
      total_points := qtrunc (sumBy MatchRec.points df)
      points_per_game := pyround (sumBy MatchRec.points df / df.length) 2
      goals_scored := qtrunc (sumBy MatchRec.goalScored df)
      goals_conceded := qtrunc (sumBy MatchRec.goalConceded df)
      goal_difference := qtrunc (sumBy MatchRec.goalScored df - sumBy MatchRec.goalConceded df)
      clean_sheets_count := (df.map isCleanSheet).sum
      home_wins := ((df.filter (fun r => r.side == "Home")).map isWin).sum
      away_wins := ((df.filter (fun r => r.side == "Away")).map isWin).sum
      attacking := get_attacking_metrics df
      defensive := get_defensive_metrics df
      possession := get_possession_metrics df }

/-- The outcome letter appended by `get_form`: `W` when `is_win == 1`, else `D`
when `is_draw == 1`, else `L`. -/
def outcomeChar (r : MatchRec) : Char :=
  if isWin r = 1 then 'W' else if isDraw r = 1 then 'D' else 'L'

/-- The dict returned by `get_form`. -/
structure FormResult where
  form_list : List Char
  form_string : String
  points : ℤ
  max_points : ℕ
  goals_scored : ℤ
  goals_conceded : ℤ
  wins : ℕ
  draws : ℕ
  losses : ℕ
deriving DecidableEq

/-- `get_form(df, last_n)`: `df.tail(last_n)` keeps the last `last_n` rows in
the frame's existing order (all rows when fewer exist); no re-sort. -/
def get_form (df : List MatchRec) (last_n : ℕ := 5) : FormResult :=
  let recent := df.drop (df.length - last_n)
  { form_list := recent.map outcomeChar
    form_string := String.mk (recent.map outcomeChar)
    points := qtrunc (sumBy MatchRec.points recent)
    max_points := last_n * 3
    goals_scored := qtrunc (sumBy MatchRec.goalScored recent)
    goals_conceded := qtrunc (sumBy MatchRec.goalConceded recent)
    wins := (recent.map isWin).sum
    draws := (recent.map isDraw).sum
    losses := (recent.map isLoss).sum }

/- ===== calculate_league_position ===== -/

/-- Group keys of `df.groupby("Team")`: the distinct team names.  (pandas emits
group keys in sorted order and `sort_values` uses an unstable quicksort, so the
relative order of rows whose whole sort key ties is unspecified in the source;
this model keeps first-occurrence order, which only ever differs inside such
full ties.) -/
def uniqAux : List String → List String → List String
  | [], _ => []
  | t :: rest, seen =>
    if t ∈ seen then uniqAux rest seen else t :: uniqAux rest (t :: seen)

/-- Distinct team names of a record list, first occurrence first. -/
def uniqKeys (l : List String) : List String :=
  uniqAux l []

/-- One aggregated standings row before display casting: the summed columns of
`groupby("Team").agg(...)` plus the derived `GD` and `P` columns. -/
structure AggRow where
  team : String
  points : ℚ
  gf : ℚ
  ga : ℚ
  w : ℕ
  d : ℕ
  l : ℕ
  gd : ℚ
  p : ℕ
deriving DecidableEq

/-- Build the aggregated row of one team from its matches: sums of `points`,
`Goal scored`, `Goal conceded`, `is_win`, `is_draw`, `is_loss`, then
`GD = GF - GA` and `P = W + D + L`. -/
def mkAggRow (t : String) (recs : List MatchRec) : AggRow where
  team := t
  points := sumBy MatchRec.points recs
  gf := sumBy MatchRec.goalScored recs
  ga := sumBy MatchRec.goalConceded recs
  w := (recs.map isWin).sum
  d := (recs.map isDraw).sum
  l := (recs.map isLoss).sum
  gd := sumBy MatchRec.goalScored recs - sumBy MatchRec.goalConceded recs
  p := (recs.map isWin).sum + (recs.map isDraw).sum + (recs.map isLoss).sum

/-- The grouped-and-aggregated table, one row per distinct team. -/
def aggRows (records : List MatchRec) : List AggRow :=
  (uniqKeys (records.map MatchRec.team)).map
    (fun t => mkAggRow t (records.filter (fun r => r.team == t)))

/-- `sort_values(["Points","GD","GF"], ascending=[False,False,False])` as a
relation: row `a` precedes row `b` when `b`'s key is lexicographically at most
`a`'s. -/
def keyGE (a b : AggRow) : Prop :=
  b.points < a.points ∨
    (b.points = a.points ∧ (b.gd < a.gd ∨ (b.gd = a.gd ∧ b.gf ≤ a.gf)))

instance : DecidableRel keyGE := fun a b => by unfold keyGE; infer_instance

instance : IsTotal AggRow keyGE where
  total a b := by
    unfold keyGE
    rcases lt_trichotomy a.points b.points with h | h | h
    · exact Or.inr (Or.inl h)
    · rcases lt_trichotomy a.gd b.gd with h2 | h2 | h2
      · exact Or.inr (Or.inr ⟨h, Or.inl h2⟩)
      · rcases le_total b.gf a.gf with h3 | h3
        · exact Or.inl (Or.inr ⟨h.symm, Or.inr ⟨h2.symm, h3⟩⟩)
        · exact Or.inr (Or.inr ⟨h, Or.inr ⟨h2, h3⟩⟩)
      · exact Or.inl (Or.inr ⟨h.symm, Or.inl h2⟩)
    · exact Or.inl (Or.inl h)

instance : IsTrans AggRow keyGE where
  trans a b c hab hbc := by
    unfold keyGE at *
    rcases hab with h1 | ⟨h1, h1'⟩ <;> rcases hbc with h2 | ⟨h2, h2'⟩
    · exact Or.inl (h2.trans h1)
    · exact Or.inl (h2 ▸ h1)
    · exact Or.inl (h1 ▸ h2)
    · refine Or.inr ⟨h2.trans h1, ?_⟩
      rcases h1' with h3 | ⟨h3, h3'⟩ <;> rcases h2' with h4 | ⟨h4, h4'⟩
      · exact Or.inl (h4.trans h3)
      · exact Or.inl (h4 ▸ h3)
      · exact Or.inl (h3 ▸ h4)
      · exact Or.inr ⟨h4.trans h3, h4'.trans h3'⟩

/-- The sorted standings table (still with raw rational sums). -/
def standingsSorted (records : List MatchRec) : List AggRow :=
  List.insertionSort keyGE (aggRows records)

/-- One displayed standings row: `standings.index + 1` as `Position`, and every
numeric column cast with `astype(int)`. -/
structure StandingsRow where
  position : ℕ
  team : String
  p : ℕ
  w : ℕ
  d : ℕ
  l : ℕ
  gf : ℤ
  ga : ℤ
  gd : ℤ
  points : ℤ
deriving DecidableEq

/-- Cast one aggregated row for display at 1-based position `i`. -/
def displayRow (i : ℕ) (a : AggRow) : StandingsRow where
  position := i
  team := a.team
  p := a.p
  w := a.w
  d := a.d
  l := a.l
  gf := qtrunc a.gf
  ga := qtrunc a.ga
  gd := qtrunc a.gd
  points := qtrunc a.points

/-- Attach `Position = index + 1` down the sorted table. -/
def attachPositions (i : ℕ) : List AggRow → List StandingsRow
  | [] => []
  | a :: rest => displayRow i a :: attachPositions (i + 1) rest

/-- `calculate_league_position(df, season=None)`: optional season filter, group
by team, aggregate, sort descending by (Points, GD, GF), then 1-based positions
and integer display casts. -/
def calculate_league_position (records : List MatchRec) (season : Option String := none) :
    List StandingsRow :=
  let df := match season with
    | some s => records.filter (fun r => r.season == s)
    | none => records
  attachPositions 1 (standingsSorted df)

/-- The spec's standings-determinism scenario: Team A 30 points/+10 GD,
Team B 30 points/+5 GD, Team C 28 points, supplied in scrambled order. -/
def exC3 : List MatchRec :=
  [{ team := "Team C", season := "2023-2024", points := 28, goalScored := 5, goalConceded := 5 },
   { team := "Team B", season := "2023-2024", points := 30, goalScored := 10, goalConceded := 5 },
   { team := "Team A", season := "2023-2024", points := 30, goalScored := 12, goalConceded := 2 }]

/-- A two-season table for one team, for exercising the cross-season
aggregation path of `calculate_league_position`. -/
def exC10 : List MatchRec :=
  [{ team := "X", season := "2023-2024", points := 3, goalScored := 2 },
   { team := "X", season := "2024-2025", points := 1, goalScored := 1, goalConceded := 1 }]

/- ===== claim theorems ===== -/

/-- Membership in `uniqAux`: collected exactly when present and not yet seen. -/
theorem mem_uniqAux {x : String} : ∀ (l seen : List String),
    (x ∈ uniqAux l seen ↔ x ∈ l ∧ x ∉ seen) := by
  intro l
  induction l with
  | nil => intro seen; simp [uniqAux]
  | cons t rest ih =>
    intro seen
    by_cases h : t ∈ seen
    · simp only [uniqAux, if_pos h, ih, List.mem_cons]
      constructor
      · rintro ⟨hx, hs⟩
        exact ⟨Or.inr hx, hs⟩
      · rintro ⟨hx | hx, hs⟩
        · exact absurd (hx.symm ▸ h) hs
        · exact ⟨hx, hs⟩
    · simp only [uniqAux, if_neg h, List.mem_cons, ih]
      constructor
      · rintro (rfl | ⟨hx, hs⟩)
        · exact ⟨Or.inl rfl, h⟩
        · exact ⟨Or.inr hx, fun hxs => hs (Or.inr hxs)⟩
      · rintro ⟨rfl | hx, hs⟩
        · exact Or.inl rfl
        · by_cases hxt : x = t
          · exact Or.inl hxt
          · exact Or.inr ⟨hx, fun hc => hc.elim hxt hs⟩

/-- `uniqAux` never emits a name twice. -/
theorem nodup_uniqAux : ∀ (l seen : List String), (uniqAux l seen).Nodup := by
  intro l
  induction l with
  | nil => intro seen; simp [uniqAux]
  | cons t rest ih =>
    intro seen
    by_cases h : t ∈ seen
    · simpa [uniqAux, if_pos h] using ih seen
    · simp only [uniqAux, if_neg h, List.nodup_cons]
      exact ⟨fun hc => ((mem_uniqAux rest (t :: seen)).mp hc).2 (List.mem_cons_self t seen),
        ih (t :: seen)⟩

/-- Membership in `uniqKeys` is membership in the original list. -/
theorem mem_uniqKeys {x : String} {l : List String} : x ∈ uniqKeys l ↔ x ∈ l := by
  simp [uniqKeys, mem_uniqAux]

/-- `uniqKeys` produces distinct names. -/
theorem nodup_uniqKeys (l : List String) : (uniqKeys l).Nodup :=
  nodup_uniqAux l []

/-- Two members of a list with `Nodup` image under `f` and equal images are equal. -/
theorem nodup_map_inj {α β : Type _} {f : α → β} :
    ∀ {l : List α}, (l.map f).Nodup →
      ∀ {a b : α}, a ∈ l → b ∈ l → f a = f b → a = b := by
  intro l
  induction l with
  | nil => simp
  | cons c rest ih =>
    intro hnd a b ha hb hf
    simp only [List.map_cons, List.nodup_cons] at hnd
    rcases List.mem_cons.mp ha with rfl | ha2 <;> rcases List.mem_cons.mp hb with rfl | hb2
    · rfl
    · exact absurd (by rw [hf]; exact List.mem_map_of_mem f hb2) hnd.1
    · exact absurd (by rw [← hf]; exact List.mem_map_of_mem f ha2) hnd.1
    · exact ih hnd.2 ha2 hb2 hf

/-- The aggregated rows carry exactly the distinct team names. -/
theorem aggRows_map_team (records : List MatchRec) :
    (aggRows records).map AggRow.team = uniqKeys (records.map MatchRec.team) := by
  unfold aggRows
  rw [List.map_map]
  have hcomp : (AggRow.team ∘ fun t => mkAggRow t (records.filter (fun r => r.team == t)))
      = id := funext fun t => rfl
  rw [hcomp, List.map_id]

/-- Every aggregated row is the aggregation of its own team's record subset. -/
theorem mem_aggRows_eq {records : List MatchRec} {a : AggRow} (ha : a ∈ aggRows records) :
    a = mkAggRow a.team (records.filter (fun r => r.team == a.team)) := by
  unfold aggRows at ha
  rcases List.mem_map.mp ha with ⟨t, _, rfl⟩
  rfl

/-- Positions attach as the arithmetic sequence `i, i+1, ...`. -/
theorem attachPositions_map_position : ∀ (i : ℕ) (l : List AggRow),
    (attachPositions i l).map StandingsRow.position = List.range' i l.length := by
  intro i l
  induction l generalizing i with
  | nil => simp [attachPositions]
  | cons a rest ih => simp [attachPositions, displayRow, List.range'_succ, ih]

/-- Attaching positions keeps the team column. -/
theorem attachPositions_map_team : ∀ (i : ℕ) (l : List AggRow),
    (attachPositions i l).map StandingsRow.team = l.map AggRow.team := by
  intro i l
  induction l generalizing i with
  | nil => simp [attachPositions]
  | cons a rest ih => simp [attachPositions, displayRow, ih]

/-- Attaching positions keeps the length. -/
theorem attachPositions_length : ∀ (i : ℕ) (l : List AggRow),
    (attachPositions i l).length = l.length := by
  intro i l
  induction l generalizing i with
  | nil => simp [attachPositions]
  | cons a rest ih => simp [attachPositions, ih]

/-- Every displayed row is a positioned cast of some aggregated row. -/
theorem mem_attachPositions : ∀ {i : ℕ} {l : List AggRow} {row : StandingsRow},
    row ∈ attachPositions i l → ∃ p a, a ∈ l ∧ row = displayRow p a := by
  intro i l
  induction l generalizing i with
  | nil => simp [attachPositions]
  | cons a rest ih =>
    intro row hrow
    rcases List.mem_cons.mp hrow with rfl | h2
    · exact ⟨i, a, List.mem_cons_self _ _, rfl⟩
    · rcases ih h2 with ⟨p, b, hb, rfl⟩
      exact ⟨p, b, List.mem_cons_of_mem _ hb, rfl⟩

/-- Every aggregated row appears, at some position, in the displayed table. -/
theorem exists_mem_attachPositions : ∀ {l : List AggRow} {a : AggRow},
    a ∈ l → ∀ i : ℕ, ∃ p, displayRow p a ∈ attachPositions i l := by
  intro l
  induction l with
  | nil => simp
  | cons b rest ih =>
    intro a ha i
    rcases List.mem_cons.mp ha with rfl | h2
    · exact ⟨i, List.mem_cons_self _ _⟩
    · rcases ih h2 (i + 1) with ⟨p, hp⟩
      exact ⟨p, List.mem_cons_of_mem _ hp⟩

/-- The displayed team column is a permutation of the distinct team names. -/
theorem calc_map_team_perm (records : List MatchRec) :
    ((calculate_league_position records none).map StandingsRow.team).Perm
      (uniqKeys (records.map MatchRec.team)) := by
  show ((attachPositions 1 (standingsSorted records)).map StandingsRow.team).Perm _
  rw [attachPositions_map_team]
  refine ((List.perm_insertionSort keyGE (aggRows records)).map AggRow.team).trans ?_
  rw [aggRows_map_team]

/-- The displayed team column has no duplicates: one row per team. -/
theorem calc_map_team_nodup (records : List MatchRec) :
    ((calculate_league_position records none).map StandingsRow.team).Nodup :=
  (calc_map_team_perm records).nodup_iff.mpr (nodup_uniqKeys _)

/-- A column that is integer-valued on every record sums to an integer. -/
theorem sumBy_int {f : MatchRec → ℚ} : ∀ {l : List MatchRec},
    (∀ r ∈ l, (f r).den = 1) → ∃ z : ℤ, sumBy f l = (z : ℚ) := by
  intro l
  induction l with
  | nil => exact fun _ => ⟨0, by simp [sumBy]⟩
  | cons a rest ih =>
    intro h
    obtain ⟨z, hz⟩ := ih (fun r hr => h r (List.mem_cons_of_mem _ hr))
    have ha : ((f a).num : ℚ) = f a := (Rat.den_eq_one_iff _).mp (h a (List.mem_cons_self _ _))
    refine ⟨(f a).num + z, ?_⟩
    have hsum : sumBy f (a :: rest) = f a + sumBy f rest := by simp [sumBy]
    rw [hsum, hz]
    push_cast
    rw [ha]

/-- Integer casts are fixed by the display truncation. -/
theorem qtrunc_intCast (z : ℤ) : qtrunc (z : ℚ) = z := by
  unfold qtrunc
  split <;> simp

/-- C2: the possession bucket label is claimed to use half-open intervals
[0,45) Low, [45,55) Medium, [55,100] High.  The normalizer's
`possession_category` column (pandas `cut` with right-closed bins) instead
labels 45 as "Low (<45%)" and leaves 0 unlabeled, contradicting its own label
text and the half-open brackets that `get_possession_effectiveness` uses
(which do put 45 in Medium, 55 in High and 0 in Low). -/
theorem C2_possession_bucket_boundaries :
    possession_category 45 = some "Low (<45%)" ∧
    possession_category 55 = some "Medium (45-55%)" ∧
    possession_category 0 = none ∧
    mediumPossGames [({ possessionPct := 45 } : MatchRec)] = [{ possessionPct := 45 }] ∧
    highPossGames [({ possessionPct := 55 } : MatchRec)] = [{ possessionPct := 55 }] ∧
    lowPossGames [({ possessionPct := 0 } : MatchRec)] = [{ possessionPct := 0 }] := by
  refine ⟨by decide, by decide, by decide, by decide, by decide, by decide⟩

/-- C6 counterexample: on `"1 (200%)"` the parser returns a pct of 2.0, so the
claimed invariant `pct ∈ [0,1]` is false; and on `"inf"` the `int(float(s))`
fallback raises an uncaught `OverflowError`, so the claimed totality is false
too. -/
theorem C6_pct_can_exceed_one :
    parse_percentage_string (some "1 (200%)") = .ok (1, 2) ∧ (1:ℚ) < 2 ∧
    parse_percentage_string (some "inf") = .error "OverflowError" := by
  refine ⟨by decide, by decide, by decide⟩

/-- C6 (amended): on `"<int> (<int>%)"` the parser returns (count, pct/100)
with pct always ≥ 0 (pct exceeds 1 when the matched percentage exceeds 100);
a bare finite number — underscore digit groups included — gives
`(int(value), 0.0)`; empty, null, NaN-spelling or otherwise unparseable input
gives `(0, 0.0)` without raising; but a string that `float()` parses to an
infinity ("inf", "Infinity", or an overflowing literal such as "1e400")
propagates the uncaught `int()` OverflowError, so the function is not total. -/
theorem C6_parse_count_and_percentage :
    (∀ (v : Option String) (z : ℤ) (q : ℚ),
        parse_percentage_string v = .ok (z, q) → 0 ≤ q) ∧
    parse_percentage_string (some "408 (85%)") = .ok (408, 85/100) ∧
    parse_percentage_string (some "0 (0%)") = .ok (0, 0) ∧
    parse_percentage_string (some "") = .ok (0, 0) ∧
    parse_percentage_string none = .ok (0, 0) ∧
    parse_percentage_string (some "42") = .ok (42, 0) ∧
    parse_percentage_string (some "3.9") = .ok (3, 0) ∧
    parse_percentage_string (some "3_000") = .ok (3000, 0) ∧
    parse_percentage_string (some "garbage") = .ok (0, 0) ∧
    parse_percentage_string (some "nan") = .ok (0, 0) ∧
    parse_percentage_string (some "inf") = .error "OverflowError" ∧
    parse_percentage_string (some "Infinity") = .error "OverflowError" ∧
    parse_percentage_string (some "-inf") = .error "OverflowError" ∧
    parse_percentage_string (some "1e400") = .error "OverflowError" := by
  refine ⟨?_, by decide, by decide, by decide, by decide, by decide, by decide, by decide,
    by decide, by decide, by decide, by decide, by decide, by decide⟩
  intro v z q h
  rcases v with _ | s
  · simp only [parse_percentage_string, Except.ok.injEq, Prod.mk.injEq] at h
    rw [← h.2]
  · by_cases hs : s = ""
    · simp only [parse_percentage_string, if_pos hs, Except.ok.injEq, Prod.mk.injEq] at h
      rw [← h.2]
    · simp only [parse_percentage_string, if_neg hs] at h
      rcases hm : matchCountPct (pstrip s.data) with _ | ⟨c, p⟩
      · simp only [hm] at h
        rcases hf : parseFloatQ (pstrip s.data) with _ | pf
        · simp only [hf, Except.ok.injEq, Prod.mk.injEq] at h
          rw [← h.2]
        · rcases pf with qq | b | _
          · simp only [hf, Except.ok.injEq, Prod.mk.injEq] at h
            rw [← h.2]
          · simp only [hf] at h
            exact Except.noConfusion h
          · simp only [hf, Except.ok.injEq, Prod.mk.injEq] at h
            rw [← h.2]
      · simp only [hm, Except.ok.injEq, Prod.mk.injEq] at h
        rw [← h.2]
        positivity

/-- C6 witness: the amended nonnegativity applied at a successful parse. -/
theorem C6_parse_count_and_percentage_witness :
    parse_percentage_string (some "408 (85%)") = .ok (408, 85/100) ∧
    (0 : ℚ) ≤ 85/100 := by
  have h := C6_parse_count_and_percentage
  exact ⟨h.2.1, h.1 (some "408 (85%)") 408 (85/100) h.2.1⟩

/-- C7: for a record whose points value is 3, 1 or 0, exactly one of the
`is_win`/`is_draw`/`is_loss` flags is 1, each iff its points value matches. -/
theorem C7_outcome_exclusivity (r : MatchRec)
    (h : r.points = 3 ∨ r.points = 1 ∨ r.points = 0) :
    isWin r + isDraw r + isLoss r = 1 ∧
    (isWin r = 1 ↔ r.points = 3) ∧
    (isDraw r = 1 ↔ r.points = 1) ∧
    (isLoss r = 1 ↔ r.points = 0) := by
  unfold isWin isDraw isLoss
  rcases h with h | h | h <;> simp [h]

/-- C7 witness at a concrete won match. -/
theorem C7_outcome_exclusivity_witness :
    (({ points := 3 } : MatchRec).points = 3 ∨ ({ points := 3 } : MatchRec).points = 1 ∨
      ({ points := 3 } : MatchRec).points = 0) ∧
    isWin { points := 3 } + isDraw { points := 3 } + isLoss { points := 3 } = 1 :=
  ⟨Or.inl rfl, (C7_outcome_exclusivity { points := 3 } (Or.inl rfl)).1⟩

/-- C8: on an empty team subset no metrics function raises; the three engine
maps come back fully populated with matches = 0 and every numeric entry 0,
while the summary/set-piece/shot-quality/outcome/effectiveness maps are empty. -/
theorem C8_empty_subset_behavior :
    get_attacking_metrics [] =
      { matchesPlayed := 0, total_goals := 0, total_xg := 0, goals_per_game := 0
        xg_per_game := 0, xg_overperformance := 0, xg_overperformance_per_game := 0
        shot_conversion_pct := 0, shots_on_target_pct := 0, big_chance_conversion_pct := 0
        shots_per_game := 0, shots_on_target_per_game := 0, big_chances_per_game := 0
        xgot_per_game := 0, shots_inside_box_pct := 0, total_big_chances := 0
        total_big_chances_missed := 0 } ∧
    get_defensive_metrics [] =
      { matchesPlayed := 0, total_goals_conceded := 0, goals_conceded_per_game := 0
        clean_sheets := 0, clean_sheet_pct := 0, tackles_per_game := 0
        interceptions_per_game := 0, blocks_per_game := 0, clearances_per_game := 0
        defensive_actions_per_game := 0, saves_per_game := 0, total_tackles := 0
        total_interceptions := 0, total_blocks := 0, total_clearances := 0 } ∧
    get_possession_metrics [] =
      { matchesPlayed := 0, avg_possession := 0, passes_per_game := 0
        pass_accuracy_pct := 0, opp_half_passes_per_game := 0
        own_half_passes_per_game := 0, long_ball_accuracy_pct := 0
        cross_accuracy_pct := 0, touches_in_box_per_game := 0, corners_per_game := 0
        successful_dribbles_per_game := 0, total_passes := 0, total_corners := 0 } ∧
    get_season_summary [] = none ∧
    get_set_piece_metrics [] = none ∧
    get_shot_quality_metrics [] = none ∧
    get_shot_outcome_breakdown [] = none ∧
    get_possession_effectiveness [] = none := by
  refine ⟨by decide, by decide, by decide, by decide, by decide, by decide, by decide, by decide⟩

/-- C1: every derived rate resolves to exactly 0 when its denominator
(per-match or summed total shots, big chances, passes, total xG, corners, or
the match count) is 0, whatever the numerator; the functions are total by
construction (exact rational arithmetic, no NaN, no exception path). -/
theorem C1_safe_division (r : MatchRec) (df edf : List MatchRec)
    (hshots : r.totalShots = 0) (hbig : r.bigChances = 0)
    (hpass : r.passes = 0) (hxg : r.xg = 0)
    (hdshots : sumBy MatchRec.totalShots df = 0)
    (hdbig : sumBy MatchRec.bigChances df = 0)
    (hdxg : sumBy MatchRec.xg df = 0)
    (hdcorners : sumBy MatchRec.corners df = 0)
    (hempty : edf = []) :
    (shot_conversion_pct r = 0 ∧ shots_on_target_pct r = 0 ∧
     big_chance_conversion_pct r = 0 ∧ shots_inside_box_pct r = 0 ∧
     opp_half_passes_pct r = 0 ∧ xg_open_play_ratio r = 0 ∧
     xg_set_play_ratio r = 0 ∧ xg_per_shot r = 0 ∧ woodwork_rate r = 0 ∧
     blocked_shot_rate r = 0 ∧ shots_off_target_rate r = 0) ∧
    (shot_conversion_rate df = 0 ∧ shots_on_target_rate df = 0 ∧
     big_chance_conversion_rate df = 0 ∧ shots_inside_box_rate df = 0 ∧
     set_piece_xg_pct_val df = 0 ∧ open_play_xg_pct_val df = 0 ∧
     xg_per_corner_val df = 0 ∧ avg_xg_per_shot_val df = 0 ∧
     shot_rate_pct_val MatchRec.hitWoodwork df = 0 ∧
     shot_rate_pct_val MatchRec.blockedShots df = 0 ∧
     shot_rate_pct_val MatchRec.shotsOffTarget df = 0 ∧
     touchesPerXgVal df = 0) ∧
    (goals_per_game edf = 0 ∧ xg_per_game edf = 0 ∧
     xg_overperformance_per_game edf = 0 ∧ shots_per_game edf = 0 ∧
     shots_on_target_per_game edf = 0 ∧ big_chances_per_game edf = 0 ∧
     xgot_per_game edf = 0 ∧ goals_conceded_per_game edf = 0 ∧
     tackles_per_game edf = 0 ∧ interceptions_per_game edf = 0 ∧
     blocks_per_game edf = 0 ∧ clearances_per_game edf = 0 ∧
     defensive_actions_per_game edf = 0 ∧ saves_per_game edf = 0 ∧
     passes_per_game edf = 0 ∧ opposition_half_passes_per_game edf = 0 ∧
     own_half_passes_per_game edf = 0 ∧ touches_in_box_per_game edf = 0 ∧
     corners_per_game edf = 0 ∧ successful_dribbles_per_game edf = 0) := by
  subst hempty
  refine ⟨?_, ?_, ?_⟩
  · simp [shot_conversion_pct, shots_on_target_pct, big_chance_conversion_pct,
      shots_inside_box_pct, opp_half_passes_pct, xg_open_play_ratio,
      xg_set_play_ratio, xg_per_shot, woodwork_rate, blocked_shot_rate,
      shots_off_target_rate, hshots, hbig, hpass, hxg]
  · simp [shot_conversion_rate, shots_on_target_rate, big_chance_conversion_rate,
      shots_inside_box_rate, set_piece_xg_pct_val, open_play_xg_pct_val,
      xg_per_corner_val, avg_xg_per_shot_val, shot_rate_pct_val, touchesPerXgVal,
      hdshots, hdbig, hdxg, hdcorners]
  · simp [goals_per_game, xg_per_game, xg_overperformance_per_game,
      shots_per_game, shots_on_target_per_game, big_chances_per_game,
      xgot_per_game, goals_conceded_per_game, tackles_per_game,
      interceptions_per_game, blocks_per_game, clearances_per_game,
      defensive_actions_per_game, saves_per_game, passes_per_game,
      opposition_half_passes_per_game, own_half_passes_per_game,
      touches_in_box_per_game, corners_per_game, successful_dribbles_per_game]

/-- C1 witness: a record and frame with every denominator equal to 0. -/
theorem C1_safe_division_witness :
    ({} : MatchRec).totalShots = 0 ∧ sumBy MatchRec.totalShots [{}] = 0 ∧
    shot_conversion_pct {} = 0 ∧ shot_conversion_rate [{}] = 0 ∧
    xg_per_corner_val [{}] = 0 ∧ goals_per_game ([] : List MatchRec) = 0 := by
  have h := C1_safe_division {} [{}] [] rfl rfl rfl rfl (by decide) (by decide)
    (by decide) (by decide) rfl
  exact ⟨rfl, by decide, h.1.1, h.2.1.1, h.2.1.2.2.2.2.2.2.1, h.2.2.1⟩

/-- C9: `get_form` takes exactly the last N records of the table in its given
order (a suffix — all records when fewer than N exist), maps each to one
W/D/L character in that order, sums points over exactly those records, and
reports max_points = N*3 regardless of how many records exist; with 3 matches
and last_n = 5 the form string has 3 characters and max_points is 15. -/
theorem C9_form_window (df : List MatchRec) (n : ℕ) :
    (get_form df n).form_list = (df.drop (df.length - n)).map outcomeChar ∧
    (get_form df n).form_string = String.mk ((df.drop (df.length - n)).map outcomeChar) ∧
    (get_form df n).form_list.length = min n df.length ∧
    df.drop (df.length - n) <:+ df ∧
    (get_form df n).points = qtrunc (sumBy MatchRec.points (df.drop (df.length - n))) ∧
    (get_form df n).max_points = n * 3 ∧
    (get_form [({ points := 3 } : MatchRec), { points := 1 }, { points := 0 }] 5).form_list.length = 3 ∧
    (get_form [({ points := 3 } : MatchRec), { points := 1 }, { points := 0 }] 5).max_points = 15 ∧
    (get_form [({ points := 3 } : MatchRec), { points := 1 }, { points := 0 }] 5).points = 4 := by
  refine ⟨rfl, rfl, ?_, List.drop_suffix _ _, rfl, rfl, by decide, by decide, by decide⟩
  simp only [get_form, List.length_map, List.length_drop]
  omega

/-- Membership in one conditionally-appended rule segment. -/
theorem mem_if_singleton {c : Prop} [Decidable c] {x i : Insight} :
    (i ∈ if c then [x] else []) ↔ c ∧ i = x := by
  split <;> simp_all

/-- `List.any` over one conditionally-appended rule segment. -/
theorem any_if_singleton {c : Prop} [Decidable c] {x : Insight} {p : Insight → Bool} :
    ((if c then [x] else []).any p) = (decide c && p x) := by
  split <;> simp_all

/-- C4 counterexample: a non-empty subject whose low- and high-possession PPG
are equal (both 0) still receives the Counter-attack finding, because the
source fires the rule on `not (high_ppg > low_ppg)`, not on strict `>`. -/
theorem C4_equal_ppg_still_emits :
    lowPossPPG [({ possessionPct := 50, points := 3 } : MatchRec)] =
      highPossPPG [({ possessionPct := 50, points := 3 } : MatchRec)] ∧
    (get_possession_tactical_insights
        [({ possessionPct := 50, points := 3 } : MatchRec)] []).any
      (fun i => i.title == "Counter-Attack Style More Effective") = true := by
  refine ⟨by decide, by decide⟩

/-- C4 (amended): for a non-empty subject team the Counter-attack finding is
emitted iff the high-possession PPG is not strictly greater than the
low-possession PPG (so equality, including 0 = 0, does emit), and any such
finding carries severity "high". -/
theorem C4_counter_attack_rule (tdf cdf : List MatchRec) (h : tdf ≠ []) :
    ((get_possession_tactical_insights tdf cdf).any
        (fun i => i.title == "Counter-Attack Style More Effective") = true
      ↔ highPossPPG tdf ≤ lowPossPPG tdf) ∧
    (∀ i ∈ get_possession_tactical_insights tdf cdf,
      i.title = "Counter-Attack Style More Effective" → i.severity = "high") := by
  have hne : ¬ (tdf.length = 0) := by simpa [List.length_eq_zero] using h
  have hbet : betterWithPossessionGet (get_possession_effectiveness tdf)
      = decide (highPossPPG tdf > lowPossPPG tdf) := by
    simp [get_possession_effectiveness, betterWithPossessionGet, hne]
  constructor
  · simp [get_possession_tactical_insights, any_if_singleton, hbet, not_lt]
  · intro i hi htitle
    simp only [get_possession_tactical_insights, List.mem_append, mem_if_singleton] at hi
    rcases hi with (h1 | h1) | h1
    · rw [h1.2]
    · rw [h1.2] at htitle; simp at htitle
    · rw [h1.2]

/-- C4 witness: the amended rule applied at a concrete equal-PPG subject. -/
theorem C4_counter_attack_rule_witness :
    ([({ possessionPct := 50, points := 3 } : MatchRec)] ≠ ([] : List MatchRec)) ∧
    highPossPPG [({ possessionPct := 50, points := 3 } : MatchRec)] ≤
      lowPossPPG [({ possessionPct := 50, points := 3 } : MatchRec)] ∧
    (get_possession_tactical_insights
        [({ possessionPct := 50, points := 3 } : MatchRec)] []).any
      (fun i => i.title == "Counter-Attack Style More Effective") = true := by
  refine ⟨by decide, by decide, ?_⟩
  exact (C4_counter_attack_rule _ [] (by decide)).1.mpr (by decide)

/-- C5: the Set-piece dependency finding is emitted iff the subject's rounded
set-piece-xG% exceeds the comparison's by more than 5 points, and its severity
is "high" exactly when the subject's set-piece-xG% is greater than 35, else
"medium". -/
theorem C5_set_piece_dependency_rule (tdf cdf : List MatchRec) :
    ((get_tactical_insights tdf cdf).any
        (fun i => i.title == "Set Piece Dependency") = true
      ↔ spPctGet (get_set_piece_metrics tdf) > spPctGet (get_set_piece_metrics cdf) + 5) ∧
    (∀ i ∈ get_tactical_insights tdf cdf, i.title = "Set Piece Dependency" →
      i.severity =
        if spPctGet (get_set_piece_metrics tdf) > 35 then "high" else "medium") := by
  constructor
  · simp [get_tactical_insights, any_if_singleton]
  · intro i hi htitle
    simp only [get_tactical_insights, List.mem_append, mem_if_singleton] at hi
    rcases hi with (((h1 | h1) | h1) | h1) | h1
    · rw [h1.2]
    · rw [h1.2] at htitle; simp at htitle
    · rw [h1.2] at htitle; simp at htitle
    · rw [h1.2] at htitle; simp at htitle
    · rw [h1.2] at htitle; simp at htitle

/-- C5 witness: 40% vs 30% emits with severity high; 36% vs 29% emits a high
severity finding; 33% vs 27% emits a medium one. -/
theorem C5_set_piece_dependency_witness :
    spPctGet (get_set_piece_metrics [({ xg := 10, xgSetPlay := 4 } : MatchRec)]) = 40 ∧
    spPctGet (get_set_piece_metrics [({ xg := 10, xgSetPlay := 3 } : MatchRec)]) = 30 ∧
    (get_tactical_insights [({ xg := 10, xgSetPlay := 4 } : MatchRec)]
        [({ xg := 10, xgSetPlay := 3 } : MatchRec)]).any
      (fun i => i.title == "Set Piece Dependency") = true ∧
    get_tactical_insights [({ xg := 10, xgSetPlay := 4 } : MatchRec)]
        [({ xg := 10, xgSetPlay := 3 } : MatchRec)] =
      [{ title := "Set Piece Dependency"
         action := "Improve open play build-up patterns and create more chances from possession"
         severity := "high" }] ∧
    (get_tactical_insights [({ xg := 100, xgSetPlay := 36 } : MatchRec)]
        [({ xg := 100, xgSetPlay := 29 } : MatchRec)]).any
      (fun i => i.severity == "high") = true ∧
    (get_tactical_insights [({ xg := 100, xgSetPlay := 33 } : MatchRec)]
        [({ xg := 100, xgSetPlay := 27 } : MatchRec)]).any
      (fun i => i.severity == "medium") = true := by
  refine ⟨by decide, by decide, ?_, by decide, by decide, by decide⟩
  exact (C5_set_piece_dependency_rule _ _).1.mpr (by decide)

/-- C3: `calculate_league_position` yields one row per team, with
`P = W + D + L`, `GD = GF - GA`, rows sorted descending by (Points, GD, GF)
with no further tie-break, and `Position` equal to the 1-based rank 1..N; on
the A/B/C scenario the order is [A, B, C] with positions [1, 2, 3].
(The `GD = GF - GA` identity for the integer display columns assumes
integer-valued goal counts, which the data model guarantees.) -/
theorem C3_league_position (records : List MatchRec)
    (hgf : ∀ r ∈ records, (r.goalScored).den = 1)
    (hga : ∀ r ∈ records, (r.goalConceded).den = 1) :
    ((calculate_league_position records none).map StandingsRow.position
        = List.range' 1 (calculate_league_position records none).length) ∧
    ((calculate_league_position records none).map StandingsRow.team).Nodup ∧
    ((calculate_league_position records none).map StandingsRow.team).Perm
      (uniqKeys (records.map MatchRec.team)) ∧
    List.Sorted keyGE (standingsSorted records) ∧
    (∀ row ∈ calculate_league_position records none, row.p = row.w + row.d + row.l) ∧
    (∀ row ∈ calculate_league_position records none, row.gd = row.gf - row.ga) ∧
    (calculate_league_position exC3 none).map StandingsRow.team
      = ["Team A", "Team B", "Team C"] ∧
    (calculate_league_position exC3 none).map StandingsRow.position = [1, 2, 3] := by
  have hcalc : calculate_league_position records none
      = attachPositions 1 (standingsSorted records) := rfl
  refine ⟨?_, calc_map_team_nodup records, calc_map_team_perm records,
    List.sorted_insertionSort keyGE (aggRows records), ?_, ?_, by decide, by decide⟩
  · rw [hcalc, attachPositions_map_position, attachPositions_length]
  · intro row hrow
    rw [hcalc] at hrow
    obtain ⟨p, a, haS, rfl⟩ := mem_attachPositions hrow
    have haA : a ∈ aggRows records :=
      (List.perm_insertionSort keyGE (aggRows records)).mem_iff.mp haS
    have he := mem_aggRows_eq haA
    show a.p = a.w + a.d + a.l
    rw [he]
    rfl
  · intro row hrow
    rw [hcalc] at hrow
    obtain ⟨p, a, haS, rfl⟩ := mem_attachPositions hrow
    have haA : a ∈ aggRows records :=
      (List.perm_insertionSort keyGE (aggRows records)).mem_iff.mp haS
    have he := mem_aggRows_eq haA
    obtain ⟨z1, hz1⟩ := sumBy_int (f := MatchRec.goalScored)
      (l := records.filter (fun r => r.team == a.team))
      (fun r hr => hgf r (List.mem_filter.mp hr).1)
    obtain ⟨z2, hz2⟩ := sumBy_int (f := MatchRec.goalConceded)
      (l := records.filter (fun r => r.team == a.team))
      (fun r hr => hga r (List.mem_filter.mp hr).1)
    have hgf2 : a.gf = (z1 : ℚ) := by
      conv_lhs => rw [he]
      exact hz1
    have hga2 : a.ga = (z2 : ℚ) := by
      conv_lhs => rw [he]
      exact hz2
    have hgd2 : a.gd = (z1 : ℚ) - (z2 : ℚ) := by
      conv_lhs => rw [he]
      show sumBy MatchRec.goalScored _ - sumBy MatchRec.goalConceded _ = _
      rw [hz1, hz2]
    show qtrunc a.gd = qtrunc a.gf - qtrunc a.ga
    have hcast : (z1 : ℚ) - (z2 : ℚ) = ((z1 - z2 : ℤ) : ℚ) := by push_cast; ring
    rw [hgf2, hga2, hgd2, hcast, qtrunc_intCast, qtrunc_intCast, qtrunc_intCast]

/-- C3 witness: the standings-determinism scenario, with integral goal counts. -/
theorem C3_league_position_witness :
    (exC3.all (fun r => r.goalScored.den == 1) = true) ∧
    (calculate_league_position exC3 none).map StandingsRow.team
      = ["Team A", "Team B", "Team C"] ∧
    (calculate_league_position exC3 none).map StandingsRow.position = [1, 2, 3] := by
  refine ⟨by decide, ?_, ?_⟩
  · exact (C3_league_position exC3 (by decide) (by decide)).2.2.2.2.2.2.1
  · exact (C3_league_position exC3 (by decide) (by decide)).2.2.2.2.2.2.2

/-- C10: without a season argument `calculate_league_position` aggregates over
every season present: it equals the computation on the season-filtered table
only when the caller passes the filter, and the single row of each team sums
points, goals and W/D/L counts over all of that team's records across seasons. -/
theorem C10_cross_season_aggregation (records : List MatchRec) (s t : String)
    (ht : t ∈ records.map MatchRec.team) :
    calculate_league_position records (some s)
      = calculate_league_position (records.filter (fun r => r.season == s)) none ∧
    ∃ row, row ∈ calculate_league_position records none ∧ row.team = t ∧
      row.points = qtrunc (sumBy MatchRec.points (records.filter (fun r => r.team == t))) ∧
      row.gf = qtrunc (sumBy MatchRec.goalScored (records.filter (fun r => r.team == t))) ∧
      row.ga = qtrunc (sumBy MatchRec.goalConceded (records.filter (fun r => r.team == t))) ∧
      row.w = ((records.filter (fun r => r.team == t)).map isWin).sum ∧
      row.d = ((records.filter (fun r => r.team == t)).map isDraw).sum ∧
      row.l = ((records.filter (fun r => r.team == t)).map isLoss).sum ∧
      ∀ row2 ∈ calculate_league_position records none, row2.team = t → row2 = row := by
  constructor
  · rfl
  · have htk : t ∈ uniqKeys (records.map MatchRec.team) := mem_uniqKeys.mpr ht
    have haA : mkAggRow t (records.filter (fun r => r.team == t)) ∈ aggRows records := by
      unfold aggRows
      exact List.mem_map_of_mem _ htk
    have haS : mkAggRow t (records.filter (fun r => r.team == t)) ∈ standingsSorted records :=
      (List.perm_insertionSort keyGE (aggRows records)).mem_iff.mpr haA
    obtain ⟨p, hp⟩ := exists_mem_attachPositions haS 1
    refine ⟨displayRow p (mkAggRow t (records.filter (fun r => r.team == t))), hp, rfl,
      rfl, rfl, rfl, rfl, rfl, rfl, ?_⟩
    intro row2 h2 hteam2
    exact nodup_map_inj (calc_map_team_nodup records) h2 hp (by rw [hteam2]; rfl)

/-- C10 witness: one team with records in two seasons; the season-filtered call
matches, and the unfiltered table shows the cross-season points total 3+1. -/
theorem C10_cross_season_aggregation_witness :
    ("X" ∈ exC10.map MatchRec.team) ∧
    calculate_league_position exC10 (some "2023-2024")
      = calculate_league_position (exC10.filter (fun r => r.season == "2023-2024")) none ∧
    (calculate_league_position exC10 none).map StandingsRow.points = [4] := by
  refine ⟨by decide, (C10_cross_season_aggregation exC10 "2023-2024" "X" (by decide)).1,
    by decide⟩

end PLTeam
